import Mathlib

/-!
Verification of `erc20-load-rig` (`src/common.py`) against its specification.

The Python module is shallowly embedded: Python exceptions become an explicit
`PyExc` sum (`Timeout` vs everything else, matching the only error
distinction the module makes), remote node calls become oracles `Nat → CallResult α` mapping
the invocation index to the outcome of that invocation, unbounded loops take a
fuel argument, and file I/O is modelled as the current contents of the file
(a `String`) threaded through the CSV-writer operations.  Numeric work
(`weighted_quantile`) is embedded over `ℚ`; the concrete inputs of the
claims are exact in binary floating point, so the rational model agrees
with the numpy computation on them.
-/

/-- A Python exception as seen by `common.py`: the code only ever
distinguishes `web3.utils.threads.Timeout` from every other exception. -/
inductive PyExc where
  | timeout (msg : String)
  | error (msg : String)
deriving DecidableEq, Repr

/-- Outcome of one invocation of a remote (or otherwise fallible) call:
either a value or a raised exception. -/
inductive CallResult (α : Type) where
  | ok (v : α)
  | exn (e : PyExc)
deriving DecidableEq, Repr

/-- Embedding: `ignore_timeouts` body (common.py lines 121–129): loop invoking `f`,
returning its value on success, retrying on `Timeout`, re-raising any other
exception.  `f` is an oracle from invocation index to outcome, `i` the index
of the next invocation, and `fuel` bounds the number of remaining
invocations (the Python loop is unbounded; `none` means the loop is still
running when fuel runs out).  On completion the result carries the total
number of invocations performed together with the returned value or the
propagated exception. -/
def ignore_timeouts_run (f : Nat → CallResult α) : Nat → Nat → Option (Nat × Except PyExc α)
  | _, 0 => none
  | i, fuel + 1 =>
    match f i with
    | CallResult.ok v => some (i + 1, Except.ok v)
    | CallResult.exn (PyExc.timeout _) => ignore_timeouts_run f (i + 1) fuel
    | CallResult.exn (PyExc.error m) => some (i + 1, Except.error (PyExc.error m))

/-- The wrapper produced by the `ignore_timeouts` decorator, started at the
first invocation. -/
def ignore_timeouts (f : Nat → CallResult α) (fuel : Nat) : Option (Nat × Except PyExc α) :=
  ignore_timeouts_run f 0 fuel

/-- Embedding: `AccountWrapper` (common.py lines 41–61): account key material plus the
in-memory nonce counter.  Address derivation and balance queries live in the
external client library and are not part of the tracked state. -/
structure AccountWrapper where
  privateKey : String
  nonce : Int
deriving DecidableEq, Repr

/-- Embedding: `AccountWrapper.get_use_nonce` (common.py lines 56–58): increment the
stored counter and return its pre-increment value. -/
def AccountWrapper.get_use_nonce (a : AccountWrapper) : Int × AccountWrapper :=
  (a.nonce, { a with nonce := a.nonce + 1 })

/-- Embedding: `n` successive `get_use_nonce` calls on one handle: the list of returned
values in order, and the final handle. -/
def AccountWrapper.get_use_nonce_seq (a : AccountWrapper) : Nat → List Int × AccountWrapper
  | 0 => ([], a)
  | n + 1 =>
    let step := a.get_use_nonce
    let rest := step.2.get_use_nonce_seq n
    (step.1 :: rest.1, rest.2)

/-- Embedding: `AccountWrapper.__init__` (common.py lines 44–46).  When `nonce?` is
`none` the counter is seeded by one direct call to
`w3.eth.getTransactionCount` — the raw client method, not the retry-wrapped
module-level `get_transaction_count` — so an exception raised by that call
propagates.  `fetch` is the oracle for `w3.eth.getTransactionCount`; the
second component counts how many times it was invoked. -/
def AccountWrapper.init (pk : String) (nonce? : Option Int)
    (fetch : Nat → CallResult Int) : Except PyExc AccountWrapper × Nat :=
  match nonce? with
  | some n => (Except.ok ⟨pk, n⟩, 0)
  | none =>
    match fetch 0 with
    | CallResult.ok n => (Except.ok ⟨pk, n⟩, 1)
    | CallResult.exn e => (Except.error e, 1)

/-- Embedding: `get_transaction_count` (common.py lines 142–144): the module-level,
`ignore_timeouts`-wrapped transaction-count query. -/
def get_transaction_count (fetch : Nat → CallResult Int) (fuel : Nat) :
    Option (Nat × Except PyExc Int) :=
  ignore_timeouts fetch fuel

/-- Embedding: `create_account` (common.py lines 64–65): wrap a freshly generated key
with an explicit initial nonce of `0`.  `pk` stands for
`Account.create().privateKey`. -/
def create_account (pk : String) (fetch : Nat → CallResult Int) :
    Except PyExc AccountWrapper × Nat :=
  AccountWrapper.init pk (some 0) fetch

/-- The result of `w3.eth.account.signTransaction`: the raw encoding to
broadcast and the locally computable transaction hash, both already in
their hex representation (the `w3.toHex` conversion of the external client
is the identity on this representation). -/
structure SignedTx where
  rawTransaction : String
  hash : String
deriving DecidableEq, Repr

/-- A transaction dict as built by `send_ether` (common.py lines 77–86). -/
structure TxDict where
  toAddress : String
  gas : Int
  gasPrice : Int
  value : Int
  chainId : Int
  nonce : Int
deriving DecidableEq, Repr

/-- Embedding: `sign_send_tx` (common.py lines 68–74): sign `tx` with the sender
key, then broadcast the raw signed transaction once.  On success return the
node-reported hash; if the broadcast raises `Timeout`, log and return the
hash of the already-signed transaction; any other exception propagates.
`sign` models `w3.eth.account.signTransaction`, `broadcast` is the oracle
for `w3.eth.sendRawTransaction` on the raw signed bytes (invocation index →
outcome).  The second component counts broadcast invocations. -/
def sign_send_tx (sign : TxDict → String → SignedTx) (fromPk : String) (tx : TxDict)
    (broadcast : String → Nat → CallResult String) : Except PyExc String × Nat :=
  let signed_tx := sign tx fromPk
  match broadcast signed_tx.rawTransaction 0 with
  | CallResult.ok h => (Except.ok h, 1)
  | CallResult.exn (PyExc.timeout _) => (Except.ok signed_tx.hash, 1)
  | CallResult.exn (PyExc.error m) => (Except.error (PyExc.error m), 1)

/-- Embedding: `send_ether` (common.py lines 77–86): build the transfer dict and hand
it to `sign_send_tx`. -/
def send_ether (sign : TxDict → String → SignedTx) (chainId : Int) (fromPk : String)
    (nonce : Int) (to_address : String) (val gas_price gas_limit : Int)
    (broadcast : String → Nat → CallResult String) : Except PyExc String × Nat :=
  sign_send_tx sign fromPk
    ⟨to_address, gas_limit, gas_price, val, chainId, nonce⟩ broadcast

/-- A transaction receipt as consulted by `wait_for_tx`: only the
`blockNumber` field matters, and for a pending transaction it is null. -/
structure Receipt where
  blockNumber : Option Int
deriving DecidableEq, Repr

/-- Python truthiness of `tx and tx.blockNumber` (common.py line 103): the
receipt must be present and its block number non-null and nonzero (a Python
`int` of value `0` is falsy). -/
def receiptTruthy : Option Receipt → Bool
  | none => false
  | some r =>
    match r.blockNumber with
    | none => false
    | some n => !(n == 0)

/-- Embedding: `wait_for_tx` (common.py lines 100–105): poll `getReceipt` (the oracle
for `w3.eth.getTransactionReceipt tx_hash`, query index → receipt), sleep a
second between queries, return as soon as `tx and tx.blockNumber` is
truthy.  `i` is the index of the next query and `fuel` bounds the number of
remaining queries; the result is the index of the query that satisfied the
condition, or `none` when the loop is still running at fuel exhaustion.
(The one-second pacing is real time and is not modelled.) -/
def wait_for_tx_run (getReceipt : Nat → Option Receipt) : Nat → Nat → Option Nat
  | _, 0 => none
  | i, fuel + 1 =>
    if receiptTruthy (getReceipt i) then some i
    else wait_for_tx_run getReceipt (i + 1) fuel

/-- Embedding: `wait_for_tx` started at the first query. -/
def wait_for_tx (getReceipt : Nat → Option Receipt) (fuel : Nat) : Option Nat :=
  wait_for_tx_run getReceipt 0 fuel

/-- Embedding: `stringify_list` (common.py lines 117–118) at the integer rows the
claims use: `str` on each element. -/
def stringify_list (l : List Int) : List String :=
  l.map toString

/-- Embedding: `CSVWriter` (common.py lines 175–189): the configured path is only ever
used to reopen the same file, so the file system is modelled as the current
contents of that file; the writer itself keeps the column names. -/
structure CSVWriter where
  cols : List String
deriving DecidableEq, Repr

/-- Embedding: `CSVWriter.__init__` (common.py lines 176–180): truncate the file and
write the comma-joined header line.  Returns the writer and the file
contents. -/
def CSVWriter.create (cols : List String) : CSVWriter × String :=
  (⟨cols⟩, String.intercalate "," cols ++ "\n")

/-- Embedding: `CSVWriter.append` (common.py lines 182–185): assert the row length
equals the column count, then append one comma-joined line.  Returns the
new file contents and the raised exception, if any; the assert precedes the
open, so on failure the contents are unchanged. -/
def CSVWriter.append (w : CSVWriter) (file : String) (row : List Int) :
    String × Option PyExc :=
  if row.length = w.cols.length then
    (file ++ String.intercalate "," (stringify_list row) ++ "\n", none)
  else
    (file, some (PyExc.error "AssertionError"))

/-- Embedding: `CSVWriter.append_all` (common.py lines 187–189): join each row with
commas, join the rows with newlines, append with one trailing newline.
There is no length assertion in this method. -/
def CSVWriter.append_all (_w : CSVWriter) (file : String) (rows : List (List Int)) :
    String × Option PyExc :=
  (file ++ String.intercalate "\n"
      (rows.map (fun row => String.intercalate "," (stringify_list row))) ++ "\n",
   none)

/-- Stable sort of `(value, weight)` pairs by value, modelling
`sorter = np.argsort(values); values[sorter]; sample_weight[sorter]`
(common.py lines 166–168): insertion of one pair in front of the first
strictly larger value. -/
def insertByValue (p : ℚ × ℚ) : List (ℚ × ℚ) → List (ℚ × ℚ)
  | [] => [p]
  | q :: rest => if p.1 ≤ q.1 then p :: q :: rest else q :: insertByValue p rest

/-- Insertion sort on the value component, stable on ties. -/
def sortByValue : List (ℚ × ℚ) → List (ℚ × ℚ)
  | [] => []
  | p :: rest => insertByValue p (sortByValue rest)

/-- Embedding: `np.cumsum`: the list of running totals. -/
def cumsum (l : List ℚ) : List ℚ :=
  (l.foldl (fun acc x => ((acc.headD 0 + x) :: acc)) []).reverse

/-- Embedding: `np.interp x xs ys` on the paired list `xs.zip ys`, for `xs`
nondecreasing: clamp to the first/last `y` outside the range, linear
interpolation on the enclosing segment inside it. -/
def interp (x : ℚ) : List (ℚ × ℚ) → ℚ
  | [] => 0
  | [(_, y0)] => y0
  | (x0, y0) :: (x1, y1) :: rest =>
    if x ≤ x0 then y0
    else if x ≤ x1 then y0 + (x - x0) * (y1 - y0) / (x1 - x0)
    else interp x ((x1, y1) :: rest)

/-- Embedding: `weighted_quantile` (common.py lines 152–172) at one quantile (the
Python version maps `np.interp` over an array of quantiles; the claims use
a single one).  Sort the `(value, weight)` pairs by value, take
`cumsum(weight) - weight/2`, normalise by the total weight, and
interpolate the quantile against these positions.  Exact rational
arithmetic stands in for the float64 arithmetic of numpy. -/
def weighted_quantile (values : List ℚ) (q : ℚ) (sample_weight : List ℚ) : ℚ :=
  let sorted := sortByValue (values.zip sample_weight)
  let vs := sorted.map Prod.fst
  let ws := sorted.map Prod.snd
  let wq := ((cumsum ws).zip ws).map (fun p => (p.1 - (1 / 2) * p.2) / ws.sum)
  interp q (wq.zip vs)

/-- Modelled from the spec: the "standard linear-interpolation percentile
computation" (`numpy.percentile` with the default linear method, which the
source docstring compares itself to) — sort the values and interpolate the
position `q * (n - 1)` against the index/value pairs.  This definition
follows the wording of the spec and exists only to be compared with
`weighted_quantile`. -/
def percentile_linear (values : List ℚ) (q : ℚ) : ℚ :=
  let vs := (sortByValue (values.zip (values.map (fun _ => (0 : ℚ))))).map Prod.fst
  interp (q * ((vs.length : ℚ) - 1))
    ((List.range vs.length).map (fun (i : ℕ) => ((i : ℚ), vs.getD i 0)))

/-- Concrete signing function for witnesses: every transaction signs to the
same raw encoding and hash. -/
def sign0 : TxDict → String → SignedTx := fun _ _ => ⟨"rawtx0", "hash0"⟩

/-- Concrete transaction dict for witnesses. -/
def tx0 : TxDict := ⟨"0xto", 21000, 1000000000, 1, 12345, 0⟩

/-- Concrete broadcast oracle that always raises `Timeout`. -/
def broadcastTimeout0 : String → Nat → CallResult String :=
  fun _ _ => CallResult.exn (PyExc.timeout "t")

/-- Concrete broadcast oracle that always raises a non-timeout error. -/
def broadcastError0 : String → Nat → CallResult String :=
  fun _ _ => CallResult.exn (PyExc.error "nonce too low")

/-- Concrete operation that raises `Timeout` on its first two invocations
and then returns `5`. -/
def opTimeoutTwice : Nat → CallResult Int := fun i =>
  if i < 2 then CallResult.exn (PyExc.timeout "t") else CallResult.ok 5

/-- Concrete operation that raises a non-timeout error on every invocation. -/
def opError0 : Nat → CallResult Int := fun _ => CallResult.exn (PyExc.error "boom")

/-- Concrete transaction-count oracle that raises `Timeout` on the first
invocation and returns `5` afterwards. -/
def fetchTimeoutFirst : Nat → CallResult Int := fun i =>
  if i = 0 then CallResult.exn (PyExc.timeout "t") else CallResult.ok 5

/-- Concrete transaction-count oracle that always raises `Timeout`. -/
def fetchTimeoutAlways : Nat → CallResult Int := fun _ => CallResult.exn (PyExc.timeout "x")

/-- Concrete transaction-count oracle that always returns `7`. -/
def fetchOk7 : Nat → CallResult Int := fun _ => CallResult.ok 7

/-- Concrete receipt oracle: every query returns a receipt whose block
number is present and equal to `0`. -/
def receiptBlockZero : Nat → Option Receipt := fun _ => some ⟨some 0⟩

/-- Concrete receipt oracle: absent for the first two queries, then a
receipt mined in block `7`. -/
def receiptAfterTwo : Nat → Option Receipt := fun i => if i < 2 then none else some ⟨some 7⟩

/-- Concrete receipt oracle: every query returns a receipt with a null
block number. -/
def receiptPending : Nat → Option Receipt := fun _ => some ⟨none⟩

/-- The list of values returned by `n` successive `get_use_nonce` calls is
the arithmetic progression starting at the current counter, and the final
counter is the start plus `n`. -/
theorem get_use_nonce_seq_spec (a : AccountWrapper) (n : Nat) :
    (a.get_use_nonce_seq n).1 = (List.range n).map (fun (i : ℕ) => a.nonce + (i : Int))
      ∧ (a.get_use_nonce_seq n).2.nonce = a.nonce + n := by
  induction n generalizing a with
  | zero => simp [AccountWrapper.get_use_nonce_seq]
  | succ n ih =>
    obtain ⟨h1, h2⟩ := ih ⟨a.privateKey, a.nonce + 1⟩
    constructor
    · simp only [AccountWrapper.get_use_nonce_seq, AccountWrapper.get_use_nonce]
      rw [List.range_succ_eq_map, List.map_cons, List.map_map]
      simp only at h1
      rw [h1]
      refine congrArg₂ List.cons (by simp) ?_
      apply List.map_congr_left
      intro i _
      simp [Function.comp]
      ring
    · simp only [AccountWrapper.get_use_nonce_seq, AccountWrapper.get_use_nonce]
      simp only at h2
      rw [h2]
      push_cast
      ring

/-- One step of the retry loop: an invocation that raises `Timeout`
consumes one unit of fuel and moves to the next invocation. -/
theorem ignore_timeouts_run_timeout_step {α : Type} (f : Nat → CallResult α) (i fuel : Nat)
    (m : String) (h : f i = CallResult.exn (PyExc.timeout m)) :
    ignore_timeouts_run f i (fuel + 1) = ignore_timeouts_run f (i + 1) fuel := by
  simp [ignore_timeouts_run, h]

/-- If the operation raises `Timeout` on invocations `i, …, i+k-1` and
returns `v` on invocation `i+k`, the retry loop started at `i` finishes
after those `k+1` invocations with `v`. -/
theorem ignore_timeouts_run_ok {α : Type} (f : Nat → CallResult α) (v : α) :
    ∀ (k i : Nat), (∀ j, j < k → ∃ m, f (i + j) = CallResult.exn (PyExc.timeout m)) →
    f (i + k) = CallResult.ok v →
    ignore_timeouts_run f i (k + 1) = some (i + k + 1, Except.ok v) := by
  intro k
  induction k with
  | zero =>
    intro i _ hok
    simp only [Nat.add_zero] at hok
    simp [ignore_timeouts_run, hok]
  | succ k ih =>
    intro i hto hok
    obtain ⟨m, hm⟩ := hto 0 (by omega)
    simp only [Nat.add_zero] at hm
    rw [ignore_timeouts_run_timeout_step f i (k + 1) m hm]
    rw [show i + (k + 1) + 1 = i + 1 + k + 1 by omega]
    exact ih (i + 1)
      (fun j hj => by
        have h3 := hto (j + 1) (by omega)
        rwa [show i + (j + 1) = i + 1 + j by omega] at h3)
      (by rwa [show i + 1 + k = i + (k + 1) by omega])

/-- If no queried receipt within the fuel window is truthy, the poll loop
is still running when fuel runs out. -/
theorem wait_for_tx_run_none (g : Nat → Option Receipt) :
    ∀ (fuel i : Nat), (∀ j, j < fuel → receiptTruthy (g (i + j)) = false) →
    wait_for_tx_run g i fuel = none := by
  intro fuel
  induction fuel with
  | zero => intro i _; rfl
  | succ fuel ih =>
    intro i h
    have h0 := h 0 (by omega)
    simp only [Nat.add_zero] at h0
    simp only [wait_for_tx_run, h0, Bool.false_eq_true, if_false]
    apply ih
    intro j hj
    have h1 := h (j + 1) (by omega)
    rwa [show i + (j + 1) = i + 1 + j by omega] at h1

/-- The poll loop returns at the first truthy receipt: if query `i + t` is
the first truthy one and there is fuel to reach it, the loop returns its
index. -/
theorem wait_for_tx_run_found (g : Nat → Option Receipt) :
    ∀ (t i fuel : Nat), t < fuel → receiptTruthy (g (i + t)) = true →
    (∀ j, j < t → receiptTruthy (g (i + j)) = false) →
    wait_for_tx_run g i fuel = some (i + t) := by
  intro t
  induction t with
  | zero =>
    intro i fuel hlt ht _
    obtain ⟨fuel, rfl⟩ : ∃ f, fuel = f + 1 := ⟨fuel - 1, by omega⟩
    simp only [Nat.add_zero] at ht
    simp [wait_for_tx_run, ht]
  | succ t ih =>
    intro i fuel hlt ht hbefore
    obtain ⟨fuel, rfl⟩ : ∃ f, fuel = f + 1 := ⟨fuel - 1, by omega⟩
    have h0 := hbefore 0 (by omega)
    simp only [Nat.add_zero] at h0
    simp only [wait_for_tx_run, h0, Bool.false_eq_true, if_false]
    rw [show i + (t + 1) = i + 1 + t by omega]
    apply ih (i + 1) fuel (by omega)
    · rwa [show i + 1 + t = i + (t + 1) by omega]
    · intro j hj
      have h1 := hbefore (j + 1) (by omega)
      rwa [show i + (j + 1) = i + 1 + j by omega] at h1

/-- C1: for every handle and every number of calls `n`, the values returned
by `n` successive `get_use_nonce` calls are exactly
`nonce, nonce+1, …, nonce+n-1` with no gaps or repeats, the counter ends at
`nonce + n`, and in particular the first call returns the starting nonce
and leaves the counter at its successor. -/
theorem C1_nonce_sequence (a : AccountWrapper) (n : Nat) :
    (a.get_use_nonce_seq n).1 = (List.range n).map (fun (i : ℕ) => a.nonce + (i : Int))
    ∧ (a.get_use_nonce_seq n).2.nonce = a.nonce + n
    ∧ a.get_use_nonce.1 = a.nonce
    ∧ a.get_use_nonce.2.nonce = a.nonce + 1 :=
  ⟨(get_use_nonce_seq_spec a n).1, (get_use_nonce_seq_spec a n).2, rfl, rfl⟩

/-- C2: in `sign_send_tx`, if the broadcast raises `Timeout` it is invoked
exactly once (never re-attempted) and the hash of the already-signed
transaction is returned; if the broadcast raises a non-timeout error, that
error propagates unmodified, again after exactly one invocation. -/
theorem C2_sign_send_tx_no_rebroadcast (sign : TxDict → String → SignedTx) (fromPk : String)
    (tx : TxDict) (broadcast : String → Nat → CallResult String) :
    ((∃ m, broadcast (sign tx fromPk).rawTransaction 0 = CallResult.exn (PyExc.timeout m)) →
      sign_send_tx sign fromPk tx broadcast = (Except.ok (sign tx fromPk).hash, 1))
    ∧ (∀ m, broadcast (sign tx fromPk).rawTransaction 0 = CallResult.exn (PyExc.error m) →
      sign_send_tx sign fromPk tx broadcast = (Except.error (PyExc.error m), 1)) := by
  constructor
  · rintro ⟨m, h⟩
    simp [sign_send_tx, h]
  · intro m h
    simp [sign_send_tx, h]

/-- Witness for C2 at a concrete signing function, transaction and
broadcast oracles. -/
theorem C2_sign_send_tx_no_rebroadcast_witness :
    sign_send_tx sign0 "pk" tx0 broadcastTimeout0 = (Except.ok "hash0", 1)
    ∧ sign_send_tx sign0 "pk" tx0 broadcastError0 = (Except.error (PyExc.error "nonce too low"), 1) :=
  ⟨(C2_sign_send_tx_no_rebroadcast sign0 "pk" tx0 broadcastTimeout0).1 ⟨"t", rfl⟩,
   (C2_sign_send_tx_no_rebroadcast sign0 "pk" tx0 broadcastError0).2 "nonce too low" rfl⟩

/-- C3: an operation wrapped by `ignore_timeouts` that raises `Timeout` on
its first `k` invocations and returns `v` on invocation `k+1` is invoked
exactly `k+1` times and the wrapper returns `v`; an operation that raises a
non-timeout error makes the wrapper raise it after exactly one
invocation. -/
theorem C3_ignore_timeouts_retry {α : Type} (f : Nat → CallResult α) (k : Nat) (v : α)
    (hto : ∀ j, j < k → ∃ m, f j = CallResult.exn (PyExc.timeout m))
    (hok : f k = CallResult.ok v) :
    ignore_timeouts f (k + 1) = some (k + 1, Except.ok v)
    ∧ ∀ (g : Nat → CallResult α) (m : String) (fuel : Nat),
        g 0 = CallResult.exn (PyExc.error m) → 1 ≤ fuel →
        ignore_timeouts g fuel = some (1, Except.error (PyExc.error m)) := by
  constructor
  · have h := ignore_timeouts_run_ok f v k 0 (fun j hj => by simpa using hto j hj)
      (by simpa using hok)
    simpa [ignore_timeouts] using h
  · intro g m fuel hg hfuel
    obtain ⟨fuel, rfl⟩ : ∃ f, fuel = f + 1 := ⟨fuel - 1, by omega⟩
    simp [ignore_timeouts, ignore_timeouts_run, hg]

/-- Witness for C3 at `k = 2`: two timeouts then success, and a
non-timeout failure. -/
theorem C3_ignore_timeouts_retry_witness :
    ignore_timeouts opTimeoutTwice 3 = some (3, Except.ok 5)
    ∧ ignore_timeouts opError0 1 = some (1, Except.error (PyExc.error "boom")) := by
  have h := C3_ignore_timeouts_retry opTimeoutTwice 2 5
    (fun j hj => ⟨"t", by simp [opTimeoutTwice, hj]⟩) (by simp [opTimeoutTwice])
  exact ⟨h.1, h.2 opError0 "boom" 1 rfl (by omega)⟩

/-- C4 counterexample: with an initial nonce of `none` and a
transaction-count oracle that raises `Timeout` on its first invocation,
`AccountWrapper.__init__` propagates the timeout after a single fetch,
whereas the retry-on-timeout policy applied to the same oracle would have
retried and succeeded — so the seeding fetch is not wrapped by that
policy. -/
theorem C4_counterexample :
    AccountWrapper.init "pk" none fetchTimeoutFirst = (Except.error (PyExc.timeout "t"), 1)
    ∧ ignore_timeouts fetchTimeoutFirst 2 = some (2, Except.ok 5) := ⟨rfl, rfl⟩

/-- C4 (amended): when the initial nonce is omitted, `__init__` seeds the
counter with one direct, unwrapped call to the node; any exception from
that call — including a transient timeout — propagates after exactly one
invocation; on success the returned count seeds the counter.  The
module-level `get_transaction_count` helper is the retry-wrapped query,
but `__init__` does not use it. -/
theorem C4_init_fetch_not_retried (pk : String) (fetch : Nat → CallResult Int)
    (e : PyExc) (n : Int) :
    (fetch 0 = CallResult.exn e → AccountWrapper.init pk none fetch = (Except.error e, 1))
    ∧ (fetch 0 = CallResult.ok n → AccountWrapper.init pk none fetch = (Except.ok ⟨pk, n⟩, 1))
    ∧ get_transaction_count fetch = ignore_timeouts fetch := by
  refine ⟨fun h => ?_, fun h => ?_, rfl⟩
  · simp [AccountWrapper.init, h]
  · simp [AccountWrapper.init, h]

/-- Witness for C4 (amended) at concrete always-timeout and always-ok
oracles. -/
theorem C4_init_fetch_not_retried_witness :
    AccountWrapper.init "pk" none fetchTimeoutAlways = (Except.error (PyExc.timeout "x"), 1)
    ∧ AccountWrapper.init "pk" none fetchOk7 = (Except.ok ⟨"pk", 7⟩, 1) :=
  ⟨(C4_init_fetch_not_retried "pk" fetchTimeoutAlways (PyExc.timeout "x") 0).1 rfl,
   (C4_init_fetch_not_retried "pk" fetchOk7 (PyExc.timeout "") 7).2.1 rfl⟩

/-- C5 counterexample: the very first queried receipt is present and
carries the non-null block number `0`, yet `wait_for_tx` has not returned
after three queries — the loop tests Python truthiness of the block
number, under which the integer `0` is falsy, not merely non-null. -/
theorem C5_counterexample :
    receiptBlockZero 0 = some ⟨some 0⟩
    ∧ wait_for_tx receiptBlockZero 3 = none := ⟨rfl, rfl⟩

/-- C5 (amended): `wait_for_tx` returns exactly at the first query whose
receipt is present with a non-null and nonzero block number (Python
truthiness of `tx and tx.blockNumber`); as long as every queried receipt
is absent, has a null block number, or has block number `0`, it keeps
re-querying and never returns. -/
theorem C5_wait_for_tx_truthy (getReceipt : Nat → Option Receipt) (fuel t : Nat) :
    (t < fuel → receiptTruthy (getReceipt t) = true →
      (∀ j, j < t → receiptTruthy (getReceipt j) = false) →
      wait_for_tx getReceipt fuel = some t)
    ∧ ((∀ j, j < fuel → receiptTruthy (getReceipt j) = false) →
      wait_for_tx getReceipt fuel = none) := by
  constructor
  · intro hlt ht hb
    have h := wait_for_tx_run_found getReceipt t 0 fuel hlt (by simpa using ht)
      (fun j hj => by simpa using hb j hj)
    simpa [wait_for_tx] using h
  · intro h
    exact wait_for_tx_run_none getReceipt fuel 0 (fun j hj => by simpa using h j hj)

/-- Witness for C5 (amended): a receipt mined in block `7` appearing at
the third query is found there; an always-pending receipt keeps the loop
running. -/
theorem C5_wait_for_tx_truthy_witness :
    wait_for_tx receiptAfterTwo 5 = some 2
    ∧ wait_for_tx receiptPending 4 = none :=
  ⟨(C5_wait_for_tx_truthy receiptAfterTwo 5 2).1 (by omega) rfl
    (fun j hj => by interval_cases j <;> rfl),
   (C5_wait_for_tx_truthy receiptPending 4 0).2 (fun j _ => rfl)⟩

/-- C6: creating a writer with columns `a,b`, appending `[1,2]`, then
appending all of `[[3,4],[5,6]]` leaves the file contents exactly
`a,b\x5cn1,2\x5cn3,4\x5cn5,6\x5cn`, with no step raising. -/
theorem C6_csv_contents :
    (CSVWriter.create ["a", "b"]).2 = "a,b\n"
    ∧ (CSVWriter.create ["a", "b"]).1.append "a,b\n" [1, 2] = ("a,b\n1,2\n", none)
    ∧ (CSVWriter.create ["a", "b"]).1.append_all "a,b\n1,2\n" [[3, 4], [5, 6]]
      = ("a,b\n1,2\n3,4\n5,6\n", none) := ⟨rfl, rfl, rfl⟩

/-- C7: `append` with a row whose length differs from the configured
column count raises the assertion error and leaves the file contents
unchanged. -/
theorem C7_append_row_length_mismatch (w : CSVWriter) (file : String) (row : List Int)
    (h : row.length ≠ w.cols.length) :
    w.append file row = (file, some (PyExc.error "AssertionError")) := by
  simp [CSVWriter.append, h]

/-- Witness for C7: a one-element row against a two-column writer. -/
theorem C7_append_row_length_mismatch_witness :
    (CSVWriter.mk ["a", "b"]).append "a,b\n" [1] = ("a,b\n", some (PyExc.error "AssertionError")) :=
  C7_append_row_length_mismatch ⟨["a", "b"]⟩ "a,b\n" [1] (by decide)

/-- C8 counterexample: a batch containing the one-element row `[1]`
against a two-column writer is written by `append_all` without any error —
`append_all` does not enforce the per-row validation of `append`. -/
theorem C8_counterexample :
    ([1] : List Int).length ≠ (CSVWriter.mk ["a", "b"]).cols.length
    ∧ (CSVWriter.mk ["a", "b"]).append_all "a,b\n" [[1]] = ("a,b\n1\n", none) :=
  ⟨by decide, rfl⟩

/-- C8 (amended): `append_all` performs no per-row length validation —
every batch is written without an error, even when it contains a row whose
length differs from the column count, in contrast to `append`, which
raises the assertion error on such a row. -/
theorem C8_append_all_unvalidated (w : CSVWriter) (file : String) (rows : List (List Int))
    (row : List Int) (h : row.length ≠ w.cols.length) :
    (w.append_all file rows).2 = none
    ∧ (w.append file row).2 = some (PyExc.error "AssertionError") :=
  ⟨rfl, by simp [CSVWriter.append, h]⟩

/-- Witness for C8 (amended) at a concrete mismatched batch. -/
theorem C8_append_all_unvalidated_witness :
    ((CSVWriter.mk ["a", "b"]).append_all "a,b\n" [[1]]).2 = none
    ∧ ((CSVWriter.mk ["a", "b"]).append "a,b\n" [1]).2 = some (PyExc.error "AssertionError") :=
  C8_append_all_unvalidated ⟨["a", "b"]⟩ "a,b\n" [[1]] [1] (by decide)

/-- C9 counterexample: with equal weights `[1,1,1]` on values `[1,2,3]`,
`weighted_quantile` at quantile `1/4` returns `5/4`, while the standard
linear-interpolation percentile computation returns `3/2` — the two do not
agree for equal weights in general. -/
theorem C9_counterexample :
    weighted_quantile [1, 2, 3] (1 / 4) [1, 1, 1] = 5 / 4
    ∧ percentile_linear [1, 2, 3] (1 / 4) = 3 / 2 := by
  constructor
  · norm_num [weighted_quantile, sortByValue, insertByValue, cumsum, interp]
  · norm_num [percentile_linear, sortByValue, insertByValue, interp, List.range_succ]

/-- C9 (amended): for values `[1,2,3]`, quantile `1/2` and equal weights
`[1,1,1]`, `weighted_quantile` returns `2`, and at this particular point
the standard linear-interpolation percentile agrees; the general
equal-weights agreement does not hold (see the counterexample), since
`weighted_quantile` interpolates against the plotting positions
`(i + 1/2) / n`. -/
theorem C9_weighted_quantile_median :
    weighted_quantile [1, 2, 3] (1 / 2) [1, 1, 1] = 2
    ∧ percentile_linear [1, 2, 3] (1 / 2) = 2 := by
  constructor
  · norm_num [weighted_quantile, sortByValue, insertByValue, cumsum, interp]
  · norm_num [percentile_linear, sortByValue, insertByValue, interp, List.range_succ]

/-- C10: `create_account` always produces a handle whose nonce counter is
exactly `0`, for every freshly generated key and without a single
invocation of the transaction-count oracle. -/
theorem C10_create_account_nonce_zero (pk : String) (fetch : Nat → CallResult Int) :
    create_account pk fetch = (Except.ok ⟨pk, 0⟩, 0) := rfl
